import Mathlib

/-!
# Verification of the WebRTC debugger's candidate/diagnostics logic

Shallow embedding of the connectivity-diagnostics code in `src/app/page.tsx`:
the ICE-candidate parser, the candidate registry (a JavaScript `Map` keyed by
foundation), the gathering-complete summary, the failure analyzer
`analyzeConnectionFailure`, the report-ordering logic of
`logCandidateFailures` / `logSuccessfulConnection`, and the guards of
`createOffer` / `initializeWebRTC`.

JavaScript-specific behaviour is modelled explicitly:
* `x || 0` on possibly-missing numeric statistics fields (`orZeroNat`);
* `s || 'unknown'` on possibly-empty strings (`jsOrUnknown`);
* `parseInt` (`jsParseInt?`), `String.split(' ')` (`jsSplitSpace`);
* insertion-ordered `Map.set` / `Map.get` (`jsMapSet` / `jsMapGet`):
  setting an existing key updates its value in place, a new key is appended;
* `Math.round(d / 1000)` for an integer `d` (`jsRoundDiv1000`).
-/

namespace WebRTCDebug

/-- JavaScript `x || 0` for a possibly-`undefined` non-negative counter:
`undefined` and `0` are falsy and give `0`. -/
def orZeroNat : Option Nat → Nat
  | none => 0
  | some n => n

/-- JavaScript `s || 'unknown'` for a string: the empty string is falsy. -/
def jsOrUnknown (s : String) : String :=
  if s = "" then "unknown" else s

/-- JavaScript `s || 'unknown'` where `s` may also be `null`/`undefined`. -/
def jsOrUnknownOpt : Option String → String
  | none => "unknown"
  | some s => jsOrUnknown s

/-- Accumulator pass of JavaScript `String.split(' ')` over the characters. -/
def jsSplitSpaceAux (cur : List Char) : List Char → List String
  | [] => [String.mk cur.reverse]
  | c :: rest =>
    if c = ' ' then String.mk cur.reverse :: jsSplitSpaceAux [] rest
    else jsSplitSpaceAux (c :: cur) rest

/-- JavaScript `s.split(' ')`: splits on every single space, keeping empty
pieces; `''.split(' ')` is `['']`. -/
def jsSplitSpace (s : String) : List String :=
  jsSplitSpaceAux [] s.data

/-- Decimal value of a digit run. -/
def digitsToNat (ds : List Char) : Nat :=
  ds.foldl (fun a c => a * 10 + (c.toNat - ('0').toNat)) 0

/-- JavaScript `parseInt(s)` (radix 10): skip leading whitespace, optional
sign, then the longest leading digit run; `none` models `NaN`. -/
def jsParseInt? (s : String) : Option Int :=
  let cs := s.data.dropWhile fun c => c.isWhitespace
  let core : List Char → Option Int := fun l =>
    let ds := l.takeWhile fun c => c.isDigit
    if ds = [] then none else some (digitsToNat ds : Int)
  match cs with
  | '-' :: rest => (core rest).map fun n => -n
  | '+' :: rest => core rest
  | other => core other

/-- JavaScript `toLowerCase` (over the character sequence). -/
def jsToLower (s : String) : String :=
  String.mk (s.data.map Char.toLower)

/-- JavaScript `parseInt(s) || 0`: `NaN` (and `0`, `-0`) become `0`. -/
def jsParseIntOrZero (s : String) : Int :=
  match jsParseInt? s with
  | none => 0
  | some n => n

/-- The parsed local-candidate record built by `parseICECandidate`
(`src/app/page.tsx`, interface `ICECandidateInfo`). -/
structure ICECandidateInfo where
  candidate : String
  type : String
  protocol : String
  address : String
  port : Int
  priority : Int
  foundation : String
deriving DecidableEq, Repr

/-- Function `parseICECandidate` (`src/app/page.tsx` lines 191-208).  Inputs are the
two fields the code reads from the browser's `RTCIceCandidate`: the raw
descriptor string `candidate.candidate` and the (possibly `null`)
`candidate.type`.  The descriptor is split on spaces; fewer than 6 parts
gives `null`.  Field fallbacks mirror the `||` defaults of the source. -/
def parseICECandidate (candStr : String) (candType : Option String) :
    Option ICECandidateInfo :=
  let parts := jsSplitSpace candStr
  if parts.length < 6 then none
  else
    some
      { candidate := candStr
        type := jsOrUnknownOpt candType
        protocol := jsOrUnknown (jsToLower (parts.getD 2 ""))
        address := jsOrUnknown (parts.getD 4 "")
        port := jsParseIntOrZero (parts.getD 5 "")
        priority := jsParseIntOrZero (parts.getD 3 "")
        foundation := jsOrUnknown (parts.getD 0 "") }

/-- A `candidate-pair` statistics report as read by the analyzer and the
report functions: ids, state, nomination flag, priority, the four
connectivity-check counters and the two last-packet timestamps.  Optional
fields of the browser's stats record are `Option`s. -/
structure CandidatePairReport where
  localCandidateId : String
  remoteCandidateId : String
  state : String
  nominated : Bool
  priority : Option Int
  requestsSent : Option Nat
  requestsReceived : Option Nat
  responsesSent : Option Nat
  responsesReceived : Option Nat
  lastPacketSentTimestamp : Option Int
  lastPacketReceivedTimestamp : Option Int
deriving DecidableEq, Repr

/-- A `local-candidate` / `remote-candidate` statistics record, with the
fields the diagnostics code reads. -/
structure RTCCandidateStats where
  candidateType : String
  protocol : String
  address : String
  port : Int
deriving DecidableEq, Repr

/-- The result record of `analyzeConnectionFailure`. -/
structure Analysis where
  reason : String
  details : String
  suggestions : List String
deriving DecidableEq, Repr

/-- Function `getNetworkTopologyInsight` (`src/app/page.tsx` lines 280-297). -/
def getNetworkTopologyInsight (lc rc : RTCCandidateStats) : String :=
  if lc.candidateType = "host" ∧ rc.candidateType = "host" then
    "Direct peer-to-peer attempt - both peers must be on same network or have public IPs"
  else if lc.candidateType = "host" ∧ rc.candidateType = "srflx" then
    "Local is direct, remote is behind NAT - remote may not accept incoming connections"
  else if lc.candidateType = "srflx" ∧ rc.candidateType = "srflx" then
    "Both peers behind NAT - may need TURN relay if NAT types are incompatible"
  else if lc.candidateType = "relay" ∨ rc.candidateType = "relay" then
    "Using TURN relay - should work unless TURN server is misconfigured"
  else if lc.candidateType = "prflx" ∨ rc.candidateType = "prflx" then
    "Peer-reflexive discovery - connection path found during connectivity checks"
  else ""

/-- The five-rule packet-pattern classifier at the top of
`analyzeConnectionFailure` (lines 219-255): the `if`/`else if` chain on the
defaulted counters, including the kind-based suggestions of rule 2. -/
def baseAnalysis (pair : CandidatePairReport) (lc rc : RTCCandidateStats) :
    Analysis :=
  let sentPackets := orZeroNat pair.requestsSent
  let receivedPackets := orZeroNat pair.requestsReceived
  let sentResponses := orZeroNat pair.responsesSent
  let receivedResponses := orZeroNat pair.responsesReceived
  if sentPackets = 0 ∧ receivedPackets = 0 then
    { reason := "No communication attempted - candidate pair was not selected for testing"
      details := "This path was deprioritized or testing was stopped early"
      suggestions := [] }
  else if sentPackets > 0 ∧ receivedPackets = 0 then
    { reason := "Outbound packets sent but no response received"
      details := s!"Sent {sentPackets} requests, received 0 responses"
      suggestions :=
        if lc.candidateType = "relay" ∨ rc.candidateType = "relay" then
          ["TURN server may be unreachable or credentials invalid",
           "Check TURN server configuration and network connectivity"]
        else if lc.candidateType = "srflx" ∨ rc.candidateType = "srflx" then
          ["NAT/Firewall may be blocking incoming connections",
           "STUN server may have provided incorrect reflexive address"]
        else if lc.candidateType = "host" ∧ rc.candidateType = "host" then
          ["Direct connection blocked - peers may be on different networks",
           "Firewall or network policy preventing direct communication"]
        else [] }
  else if sentPackets > 0 ∧ receivedPackets > 0 ∧ receivedResponses = 0 then
    { reason := "Partial communication - requests received but responses not getting back"
      details := s!"Sent {sentPackets} requests, received {receivedPackets} requests, but no responses returned"
      suggestions :=
        ["Asymmetric routing issue - return path may be blocked",
         "Remote peer may have connectivity issues"] }
  else if receivedResponses > 0 ∧ sentResponses = 0 then
    { reason := "Response delivery failure - unable to send responses back"
      details := s!"Received {receivedResponses} responses but couldn't send any back"
      suggestions := ["Local network may be blocking outbound responses"] }
  else
    { reason := "Communication timeout or authentication failure"
      details := s!"Sent: {sentPackets} requests, {sentResponses} responses | Received: {receivedPackets} requests, {receivedResponses} responses"
      suggestions := [] }

/-- The protocol-mismatch suggestion pushed at line 259. -/
def protocolMismatchMsg (lc rc : RTCCandidateStats) : String :=
  let lp := lc.protocol
  let rp := rc.protocol
  s!"Protocol mismatch: {lp} vs {rp}"

/-- JavaScript `Math.round(d / 1000)` for an integer number of milliseconds `d`:
round half up, i.e. `⌊(d + 500) / 1000⌋` with floor division. -/
def jsRoundDiv1000 (d : Int) : Int :=
  (d + 500).fdiv 1000

/-- The instability note appended to `details` at line 266, for a gap of
`g` whole seconds. -/
def gapNote (g : Int) : String :=
  s!" | Large time gap ({g}s) suggests network instability"

/-- Function `analyzeConnectionFailure` (`src/app/page.tsx` lines 211-277): the
five-rule base classification, then the protocol-mismatch suggestion, then
the timing note (only when both timestamps are truthy, i.e. present and
non-zero, and `received - sent > 5000`), then the topology insight. -/
def analyzeConnectionFailure (pair : CandidatePairReport)
    (lc rc : RTCCandidateStats) : Analysis :=
  let a1 := baseAnalysis pair lc rc
  let a2 :=
    if lc.protocol ≠ rc.protocol then
      { a1 with suggestions := a1.suggestions ++ [protocolMismatchMsg lc rc] }
    else a1
  let a3 :=
    match pair.lastPacketSentTimestamp, pair.lastPacketReceivedTimestamp with
    | some ts, some tr =>
      if ts ≠ 0 ∧ tr ≠ 0 then
        let timeDiff := tr - ts
        if timeDiff > 5000 then
          { a2 with details := a2.details ++ gapNote (jsRoundDiv1000 timeDiff) }
        else a2
      else a2
    | _, _ => a2
  let insight := getNetworkTopologyInsight lc rc
  if insight ≠ "" then
    { a3 with suggestions := a3.suggestions ++ [insight] }
  else a3

/-- Replace every missing connectivity-check counter of a pair record by an
explicit `0`, leaving all other fields alone. -/
def withDefaultCounters (p : CandidatePairReport) : CandidatePairReport :=
  { p with
    requestsSent := some (orZeroNat p.requestsSent)
    requestsReceived := some (orZeroNat p.requestsReceived)
    responsesSent := some (orZeroNat p.responsesSent)
    responsesReceived := some (orZeroNat p.responsesReceived) }

/-! ## Insertion-ordered JavaScript `Map` over association lists -/

/-- JavaScript `Map.set`: update the (unique) entry of an existing key in
place, keeping its insertion position; append a fresh key at the end. -/
def jsMapSet {α : Type} : List (String × α) → String → α → List (String × α)
  | [], k, v => [(k, v)]
  | e :: rest, k, v =>
    if e.1 = k then (k, v) :: rest else e :: jsMapSet rest k v

/-- JavaScript `Map.get` (as an `Option`): first entry with the key. -/
def jsMapGet {α : Type} : List (String × α) → String → Option α
  | [], _ => none
  | e :: rest, k => if e.1 = k then some e.2 else jsMapGet rest k

/-! ## Candidate registry (`localCandidates`, keyed by foundation) -/

/-- The `onicecandidate` insertion (line 415):
`localCandidates.current.set(candidate.foundation, candidateInfo)`. -/
def recordCandidate (m : List (String × ICECandidateInfo))
    (c : ICECandidateInfo) : List (String × ICECandidateInfo) :=
  jsMapSet m c.foundation c

/-- The registry content after recording a sequence of parsed candidates
into an initially empty map, in arrival order. -/
def loadCandidates (cs : List ICECandidateInfo) :
    List (String × ICECandidateInfo) :=
  cs.foldl recordCandidate []

/-- The last element of a list whose foundation is `k`, if any: the entry
that survives last-writer-wins insertion. -/
def lastWithFoundation (k : String) : List ICECandidateInfo →
    Option ICECandidateInfo
  | [] => none
  | c :: cs =>
    match lastWithFoundation k cs with
    | some d => some d
    | none => if c.foundation = k then some c else none

/-! ## Gathering-complete candidate summary (`logCandidateSummary`) -/

/-- One step of the count accumulation (lines 461-464):
`const count = candidateTypes.get(type) || 0; candidateTypes.set(type, count + 1)`. -/
def bumpTypeCount (m : List (String × Nat)) (t : String) :
    List (String × Nat) :=
  jsMapSet m t (orZeroNat (jsMapGet m t) + 1)

/-- The per-kind count map built by `logCandidateSummary`, in the `Map`'s
iteration order (insertion order of first occurrences). -/
def typeCounts (ts : List String) : List (String × Nat) :=
  ts.foldl bumpTypeCount []

/-- Summary `summaryByType` over a registry: iterate the registry's values in map
order and count kinds; the emitted summary lines follow this list's order. -/
def summaryByType (m : List (String × ICECandidateInfo)) :
    List (String × Nat) :=
  typeCounts (m.map fun e => e.2.type)

/-- Closed-form specification of the count map: each kind paired with its
total count, listed in order of the kind's first appearance. -/
def groupCounts : List String → List (String × Nat)
  | [] => []
  | t :: ts =>
    (t, 1 + ts.countP (fun u => u = t)) ::
      groupCounts (ts.filter (fun u => u ≠ t))
termination_by l => l.length
decreasing_by
  exact Nat.lt_succ_of_le (List.length_filter_le _ _)

/-! ## Statistics snapshot and the two report functions -/

/-- One record of a statistics poll, as dispatched on `report.type` by
`logCandidateFailures` / `logSuccessfulConnection` (lines 482-490 and
570-577): a candidate-pair record or an id-keyed local/remote candidate
record. -/
inductive StatsReport where
  | pairStat : CandidatePairReport → StatsReport
  | localStat : String → RTCCandidateStats → StatsReport
  | remoteStat : String → RTCCandidateStats → StatsReport
deriving DecidableEq, Repr

/-- The `candidatePairStats` array: pair records in poll order. -/
def pairsOf (reports : List StatsReport) : List CandidatePairReport :=
  reports.foldl
    (fun acc r =>
      match r with
      | .pairStat p => acc ++ [p]
      | _ => acc) []

/-- The `localCandidateStats` map: id-keyed local candidate records. -/
def localMapOf (reports : List StatsReport) :
    List (String × RTCCandidateStats) :=
  reports.foldl
    (fun acc r =>
      match r with
      | .localStat i c => jsMapSet acc i c
      | _ => acc) []

/-- The `remoteCandidateStats` map: id-keyed remote candidate records. -/
def remoteMapOf (reports : List StatsReport) :
    List (String × RTCCandidateStats) :=
  reports.foldl
    (fun acc r =>
      match r with
      | .remoteStat i c => jsMapSet acc i c
      | _ => acc) []

/-- The `if (localCandidate && remoteCandidate)` guard: both candidate
lookups of a pair succeed. -/
def bothLookupsOk (reports : List StatsReport) (p : CandidatePairReport) :
    Bool :=
  (jsMapGet (localMapOf reports) p.localCandidateId).isSome &&
    (jsMapGet (remoteMapOf reports) p.remoteCandidateId).isSome

/-- The pairs for which `logCandidateFailures` (lines 473-559) emits a
per-pair block, in emission order: the succeeded section
(`succeededPairs.forEach`, skipping failed lookups) followed by the failed
section (`failedPairs.forEach`, likewise). -/
def failureReportOrder (reports : List StatsReport) :
    List CandidatePairReport :=
  let pairs := pairsOf reports
  ((pairs.filter fun p => p.state = "succeeded").filter
      (bothLookupsOk reports)) ++
    ((pairs.filter fun p => p.state = "failed").filter
      (bothLookupsOk reports))

/-- The pairs for which `logSuccessfulConnection` (lines 561-663) emits a
per-pair block, in emission order: first `nominatedPairs.forEach`, then
`otherSuccessfulPairs.forEach`, each skipping pairs with a failed candidate
lookup. -/
def successReportOrder (reports : List StatsReport) :
    List CandidatePairReport :=
  let pairs := pairsOf reports
  ((pairs.filter fun p => p.state = "succeeded" ∧ p.nominated).filter
      (bothLookupsOk reports)) ++
    ((pairs.filter fun p => p.state = "succeeded" ∧ ¬p.nominated).filter
      (bothLookupsOk reports))

/-- The detailed failure analyses emitted by `logCandidateFailures`
(lines 519-540): for each failed pair, when both candidate lookups succeed
the pair's `analyzeConnectionFailure` result is reported; otherwise the
pair is omitted. -/
def detailedFailureAnalyses (reports : List StatsReport) :
    List (CandidatePairReport × Analysis) :=
  ((pairsOf reports).filter fun p => p.state = "failed").filterMap
    fun p =>
      match jsMapGet (localMapOf reports) p.localCandidateId,
          jsMapGet (remoteMapOf reports) p.remoteCandidateId with
      | some lc, some rc => some (p, analyzeConnectionFailure p lc rc)
      | _, _ => none

/-! ## Session guards: `createOffer` and `initializeWebRTC` -/

/-- The session state `createOffer` observes: whether a peer connection
exists, the role chosen at initialization, and whether the local
description has been set. -/
structure OfferSession where
  hasPeerConnection : Bool
  isInitiator : Bool
  localDescriptionSet : Bool
deriving DecidableEq, Repr

/-- Function `createOffer` (lines 687-708): its only guard is
`if (!peerConnection.current) throw new Error('No peer connection available')`
(surfaced via the `catch` as an error message); otherwise it creates the
offer and sets the local description (the browser calls are external
effects, modelled as setting `localDescriptionSet`).  No role or phase is
checked. -/
def createOffer (s : OfferSession) : Except String OfferSession :=
  if s.hasPeerConnection then
    Except.ok { s with localDescriptionSet := true }
  else
    Except.error "No peer connection available"

/-- The render guard of the Create Offer control (line 1034):
`isInitiator && peerConnection.current`. -/
def createOfferControlShown (s : OfferSession) : Bool :=
  s.isInitiator && s.hasPeerConnection

/-- The mutable app state `initializeWebRTC` touches: the three candidate
maps, whether a peer connection exists, and the role flag. -/
structure AppState where
  peerConnectionActive : Bool
  isInitiator : Bool
  localCandidates : List (String × ICECandidateInfo)
  remoteCandidates : List (String × ICECandidateInfo)
  candidatePairs : List (String × String)
deriving DecidableEq, Repr

/-- Function `initializeWebRTC` (lines 317-457): unconditionally clears the three
candidate maps, constructs a fresh peer connection (overwriting any active
one) and fixes the role; there is no already-active check in the function
itself. -/
def initializeWebRTC (asInitiator : Bool) (s : AppState) : AppState :=
  { s with
    localCandidates := []
    remoteCandidates := []
    candidatePairs := []
    peerConnectionActive := true
    isInitiator := asInitiator }

/-- The render guard of the two Initialize buttons (lines 1013 and 1020):
`disabled = peerConnection.current !== null || iceServersLoading`, i.e. the
buttons are enabled only while no peer connection exists. -/
def initializeButtonsEnabled (s : AppState) (iceServersLoading : Bool) :
    Bool :=
  !s.peerConnectionActive && !iceServersLoading

/-! ## Helper and concrete-scenario definitions -/

/-- The protocol-mismatch suggestion list appended after the base rules. -/
def protoExtra (lc rc : RTCCandidateStats) : List String :=
  if lc.protocol ≠ rc.protocol then [protocolMismatchMsg lc rc] else []

/-- The topology-insight suggestion list appended last. -/
def insightExtra (lc rc : RTCCandidateStats) : List String :=
  if getNetworkTopologyInsight lc rc ≠ "" then
    [getNetworkTopologyInsight lc rc]
  else []

/-- The timing note appended to the details string (empty when absent). -/
def timingExtra (p : CandidatePairReport) : String :=
  match p.lastPacketSentTimestamp, p.lastPacketReceivedTimestamp with
  | some ts, some tr =>
    if ts ≠ 0 ∧ tr ≠ 0 then
      if tr - ts > 5000 then gapNote (jsRoundDiv1000 (tr - ts)) else ""
    else ""
  | _, _ => ""

/-- Does the list start with the given needle? -/
def listStartsWith {α : Type} [DecidableEq α] : List α → List α → Bool
  | _, [] => true
  | [], _ :: _ => false
  | a :: as, b :: bs => if a = b then listStartsWith as bs else false

/-- Does the needle occur as a contiguous sublist? -/
def listContainsSub {α : Type} [DecidableEq α] : List α → List α → Bool
  | [], needle => needle.isEmpty
  | a :: t, needle => listStartsWith (a :: t) needle || listContainsSub t needle

/-- Substring containment on strings. -/
def strContains (hay needle : String) : Bool :=
  listContainsSub hay.data needle.data

/-- Pair for the C1 witness: request counters missing/zero but response
counters non-zero and a large timestamp gap present. -/
def c1Pair : CandidatePairReport :=
  { localCandidateId := "L1", remoteCandidateId := "R1", state := "failed",
    nominated := true, priority := some 100,
    requestsSent := none, requestsReceived := some 0,
    responsesSent := some 3, responsesReceived := some 7,
    lastPacketSentTimestamp := some 1000,
    lastPacketReceivedTimestamp := some 9000 }

def c1Local : RTCCandidateStats :=
  { candidateType := "relay", protocol := "udp", address := "10.0.0.1", port := 3478 }

def c1Remote : RTCCandidateStats :=
  { candidateType := "host", protocol := "tcp", address := "192.168.1.9", port := 51000 }

/-- The rule-2 suggestion list of `baseAnalysis`, by candidate kind. -/
def rule2Suggestions (lc rc : RTCCandidateStats) : List String :=
  if lc.candidateType = "relay" ∨ rc.candidateType = "relay" then
    ["TURN server may be unreachable or credentials invalid",
     "Check TURN server configuration and network connectivity"]
  else if lc.candidateType = "srflx" ∨ rc.candidateType = "srflx" then
    ["NAT/Firewall may be blocking incoming connections",
     "STUN server may have provided incorrect reflexive address"]
  else if lc.candidateType = "host" ∧ rc.candidateType = "host" then
    ["Direct connection blocked - peers may be on different networks",
     "Firewall or network policy preventing direct communication"]
  else []

/-- Pair for the C2 witness: Scenario A of the spec, `requestsSent = 4`,
`requestsReceived = 0`, local side a relay candidate. -/
def c2Pair : CandidatePairReport :=
  { localCandidateId := "L2", remoteCandidateId := "R2", state := "failed",
    nominated := false, priority := some 255,
    requestsSent := some 4, requestsReceived := some 0,
    responsesSent := none, responsesReceived := none,
    lastPacketSentTimestamp := none, lastPacketReceivedTimestamp := none }

def c2Local : RTCCandidateStats :=
  { candidateType := "relay", protocol := "udp", address := "203.0.113.5", port := 3478 }

def c2Remote : RTCCandidateStats :=
  { candidateType := "host", protocol := "udp", address := "192.168.1.2", port := 40004 }

/-- Failed pair whose two timestamps are 6000 ms apart, with the
last-packet-sent timestamp the later one. -/
def c3Pair : CandidatePairReport :=
  { localCandidateId := "L3", remoteCandidateId := "R3", state := "failed",
    nominated := false, priority := some 90,
    requestsSent := none, requestsReceived := none,
    responsesSent := none, responsesReceived := none,
    lastPacketSentTimestamp := some 7000,
    lastPacketReceivedTimestamp := some 1000 }

def c3Local : RTCCandidateStats :=
  { candidateType := "host", protocol := "udp", address := "192.168.0.2", port := 40000 }

def c3Remote : RTCCandidateStats :=
  { candidateType := "host", protocol := "udp", address := "192.168.0.3", port := 40001 }

/-- Failed pair whose timestamps are 6000 ms apart in the direction the
code tests: received 6000 ms after sent. -/
def c3wPair : CandidatePairReport :=
  { c3Pair with
    lastPacketSentTimestamp := some 1000,
    lastPacketReceivedTimestamp := some 7000 }

/-- A session initialized as receiver: a peer connection exists, the role
flag is not initiator, no local description yet. -/
def receiverSession : OfferSession :=
  { hasPeerConnection := true, isInitiator := false,
    localDescriptionSet := false }

/-- A session with no peer connection. -/
def idleSession : OfferSession :=
  { hasPeerConnection := false, isInitiator := true,
    localDescriptionSet := false }

/-- A session initialized as initiator. -/
def initiatorSession : OfferSession :=
  { hasPeerConnection := true, isInitiator := true,
    localDescriptionSet := false }

/-- A parsed host candidate used by concrete scenarios. -/
def demoHostInfo : ICECandidateInfo :=
  { candidate := "1111 1 udp 2122 192.168.1.4 50000 typ host",
    type := "host", protocol := "udp", address := "192.168.1.4",
    port := 50000, priority := 2122, foundation := "1111" }

/-- An app state with an active session holding a recorded candidate. -/
def c5Active : AppState :=
  { peerConnectionActive := true, isInitiator := true,
    localCandidates := [("1111", demoHostInfo)],
    remoteCandidates := [], candidatePairs := [("a", "b")] }

def c5Idle : AppState :=
  { peerConnectionActive := false, isInitiator := false,
    localCandidates := [], remoteCandidates := [], candidatePairs := [] }

/-- Three parsed host candidates with distinct foundations. -/
def hostInfoA : ICECandidateInfo :=
  { candidate := "2001 1 udp 2122 192.168.1.4 50001 typ host",
    type := "host", protocol := "udp", address := "192.168.1.4",
    port := 50001, priority := 2122, foundation := "2001" }

def hostInfoB : ICECandidateInfo :=
  { hostInfoA with
    candidate := "2002 1 udp 2122 192.168.1.5 50002 typ host",
    address := "192.168.1.5", port := 50002, foundation := "2002" }

def hostInfoC : ICECandidateInfo :=
  { hostInfoA with
    candidate := "2003 1 udp 2122 192.168.1.6 50003 typ host",
    address := "192.168.1.6", port := 50003, foundation := "2003" }

/-- A parsed relay candidate with its own foundation. -/
def relayInfo : ICECandidateInfo :=
  { candidate := "3001 1 udp 25 203.0.113.5 3478 typ relay",
    type := "relay", protocol := "udp", address := "203.0.113.5",
    port := 3478, priority := 25, foundation := "3001" }

/-- Candidate whose foundation collides with `dupB`'s. -/
def dupA : ICECandidateInfo :=
  { candidate := "5000 1 udp 10 192.0.2.1 1111 typ host",
    type := "host", protocol := "udp", address := "192.0.2.1",
    port := 1111, priority := 10, foundation := "5000" }

/-- A different candidate with the same foundation as `dupA`. -/
def dupB : ICECandidateInfo :=
  { dupA with
    candidate := "5000 1 udp 10 198.51.100.2 2222 typ host",
    address := "198.51.100.2", port := 2222 }

/-- Succeeded, nominated pair with the LOWER priority, first in the poll. -/
def c7PairLow : CandidatePairReport :=
  { localCandidateId := "lA", remoteCandidateId := "rA",
    state := "succeeded", nominated := true, priority := some 300,
    requestsSent := some 5, requestsReceived := some 5,
    responsesSent := some 5, responsesReceived := some 5,
    lastPacketSentTimestamp := none, lastPacketReceivedTimestamp := none }

/-- Succeeded, nominated pair with the HIGHER priority, second in the poll. -/
def c7PairHigh : CandidatePairReport :=
  { c7PairLow with
    localCandidateId := "lB", remoteCandidateId := "rB",
    priority := some 500 }

/-- A failed pair in the same poll. -/
def c7PairFail : CandidatePairReport :=
  { c7PairLow with
    localCandidateId := "lA", remoteCandidateId := "rB",
    state := "failed", nominated := false, priority := some 100,
    requestsReceived := some 0, responsesSent := some 0,
    responsesReceived := some 0 }

def c7CandA : RTCCandidateStats :=
  { candidateType := "host", protocol := "udp", address := "192.168.1.4",
    port := 50000 }

def c7CandB : RTCCandidateStats :=
  { candidateType := "srflx", protocol := "udp", address := "203.0.113.7",
    port := 61000 }

/-- A statistics poll: the low-priority nominated pair arrives before the
high-priority one, plus the candidate records their lookups need. -/
def c7Reports : List StatsReport :=
  [StatsReport.pairStat c7PairLow, StatsReport.pairStat c7PairHigh,
   StatsReport.pairStat c7PairFail,
   StatsReport.localStat "lA" c7CandA, StatsReport.localStat "lB" c7CandA,
   StatsReport.remoteStat "rA" c7CandB, StatsReport.remoteStat "rB" c7CandB]

/-! ## Theorems -/

/-- Shape of `analyzeConnectionFailure`: the base five-rule verdict, with
the timing note appended to the details and the protocol-mismatch and
topology suggestions appended, in that order, to the suggestion list. -/
theorem analyze_shape (p : CandidatePairReport) (lc rc : RTCCandidateStats) :
    analyzeConnectionFailure p lc rc =
      { reason := (baseAnalysis p lc rc).reason
        details := (baseAnalysis p lc rc).details ++ timingExtra p
        suggestions := (baseAnalysis p lc rc).suggestions ++
          protoExtra lc rc ++ insightExtra lc rc } := by
  unfold analyzeConnectionFailure timingExtra protoExtra insightExtra
  dsimp only
  repeat' split <;> try simp_all

/-- C1: for a failed pair whose (defaulted) request counters are both zero,
`analyzeConnectionFailure` classifies it by rule 1 — the reason is the
"not selected for testing" one — regardless of the response counters, the
timestamps and every other field of the pair and the two candidates. -/
theorem claim_C1_rule1_short_circuit (p : CandidatePairReport)
    (lc rc : RTCCandidateStats)
    (h1 : orZeroNat p.requestsSent = 0)
    (h2 : orZeroNat p.requestsReceived = 0) :
    (analyzeConnectionFailure p lc rc).reason =
      "No communication attempted - candidate pair was not selected for testing" := by
  rw [analyze_shape]
  unfold baseAnalysis
  simp [h1, h2]

theorem claim_C1_witness :
    orZeroNat c1Pair.requestsSent = 0 ∧
    orZeroNat c1Pair.requestsReceived = 0 ∧
    (analyzeConnectionFailure c1Pair c1Local c1Remote).reason =
      "No communication attempted - candidate pair was not selected for testing" :=
  ⟨by decide, by decide,
    claim_C1_rule1_short_circuit c1Pair c1Local c1Remote (by decide) (by decide)⟩

theorem baseAnalysis_rule2 (p : CandidatePairReport)
    (lc rc : RTCCandidateStats)
    (h1 : 0 < orZeroNat p.requestsSent)
    (h2 : orZeroNat p.requestsReceived = 0) :
    (baseAnalysis p lc rc).reason =
        "Outbound packets sent but no response received" ∧
      (baseAnalysis p lc rc).suggestions = rule2Suggestions lc rc := by
  have hs0 : ¬(orZeroNat p.requestsSent = 0 ∧
      orZeroNat p.requestsReceived = 0) := by
    intro h
    omega
  unfold baseAnalysis rule2Suggestions
  rw [if_neg hs0, if_pos ⟨h1, h2⟩]
  exact ⟨rfl, rfl⟩

theorem mem_analyze_of_mem_base {x : String} (p : CandidatePairReport)
    (lc rc : RTCCandidateStats)
    (hx : x ∈ (baseAnalysis p lc rc).suggestions) :
    x ∈ (analyzeConnectionFailure p lc rc).suggestions := by
  rw [analyze_shape]
  exact List.mem_append_left _ (List.mem_append_left _ hx)

/-- C2: for a failed pair with requests sent but none received, the reason
is the "no response to outbound checks" one, and the kind sub-classification
is checked in the order relay, then server-reflexive (`srflx`), then
host/host: if either side is a relay the TURN-reachability/credential
suggestions are emitted; only otherwise, if either side is server-reflexive,
the NAT/firewall and wrong-reflexive-address suggestions; only otherwise,
if both sides are hosts, the not-mutually-routable suggestions. -/
theorem claim_C2_rule2_subclassification (p : CandidatePairReport)
    (lc rc : RTCCandidateStats)
    (h1 : 0 < orZeroNat p.requestsSent)
    (h2 : orZeroNat p.requestsReceived = 0) :
    (analyzeConnectionFailure p lc rc).reason =
        "Outbound packets sent but no response received" ∧
      ((lc.candidateType = "relay" ∨ rc.candidateType = "relay") →
        "TURN server may be unreachable or credentials invalid" ∈
            (analyzeConnectionFailure p lc rc).suggestions ∧
          "Check TURN server configuration and network connectivity" ∈
            (analyzeConnectionFailure p lc rc).suggestions) ∧
      (lc.candidateType ≠ "relay" → rc.candidateType ≠ "relay" →
        (lc.candidateType = "srflx" ∨ rc.candidateType = "srflx") →
        "NAT/Firewall may be blocking incoming connections" ∈
            (analyzeConnectionFailure p lc rc).suggestions ∧
          "STUN server may have provided incorrect reflexive address" ∈
            (analyzeConnectionFailure p lc rc).suggestions) ∧
      (lc.candidateType = "host" → rc.candidateType = "host" →
        "Direct connection blocked - peers may be on different networks" ∈
            (analyzeConnectionFailure p lc rc).suggestions ∧
          "Firewall or network policy preventing direct communication" ∈
            (analyzeConnectionFailure p lc rc).suggestions) := by
  obtain ⟨hr, hsug⟩ := baseAnalysis_rule2 p lc rc h1 h2
  refine ⟨?_, ?_, ?_, ?_⟩
  · rw [analyze_shape]
    exact hr
  · intro hrel
    constructor <;>
      (apply mem_analyze_of_mem_base; rw [hsug]
       unfold rule2Suggestions
       rw [if_pos hrel]
       simp)
  · intro hlr hrr hsrf
    have hnrel : ¬(lc.candidateType = "relay" ∨ rc.candidateType = "relay") := by
      rintro (h | h) <;> contradiction
    constructor <;>
      (apply mem_analyze_of_mem_base; rw [hsug]
       unfold rule2Suggestions
       rw [if_neg hnrel, if_pos hsrf]
       simp)
  · intro hlh hrh
    have hnrel : ¬(lc.candidateType = "relay" ∨ rc.candidateType = "relay") := by
      rintro (h | h) <;> simp_all
    have hnsrf : ¬(lc.candidateType = "srflx" ∨ rc.candidateType = "srflx") := by
      rintro (h | h) <;> simp_all
    constructor <;>
      (apply mem_analyze_of_mem_base; rw [hsug]
       unfold rule2Suggestions
       rw [if_neg hnrel, if_neg hnsrf, if_pos ⟨hlh, hrh⟩]
       simp)

theorem claim_C2_witness :
    0 < orZeroNat c2Pair.requestsSent ∧
    orZeroNat c2Pair.requestsReceived = 0 ∧
    (analyzeConnectionFailure c2Pair c2Local c2Remote).reason =
        "Outbound packets sent but no response received" ∧
    "TURN server may be unreachable or credentials invalid" ∈
      (analyzeConnectionFailure c2Pair c2Local c2Remote).suggestions :=
  ⟨by decide, by decide,
    (claim_C2_rule2_subclassification c2Pair c2Local c2Remote
      (by decide) (by decide)).1,
    ((claim_C2_rule2_subclassification c2Pair c2Local c2Remote
      (by decide) (by decide)).2.1 (Or.inl (by decide))).1⟩

/-- C3 counterexample: a failed pair with both timestamps present and
6000 ms apart (sent at 7000, received at 1000) gets no instability note —
the code only tests `received - sent > 5000`, which is negative here — so
the details string contains neither "6s" nor the gap note. -/
theorem claim_C3_counterexample :
    c3Pair.lastPacketSentTimestamp = some 7000 ∧
    c3Pair.lastPacketReceivedTimestamp = some 1000 ∧
    (analyzeConnectionFailure c3Pair c3Local c3Remote).details =
      "This path was deprioritized or testing was stopped early" ∧
    strContains (analyzeConnectionFailure c3Pair c3Local c3Remote).details
      "6s" = false ∧
    strContains (analyzeConnectionFailure c3Pair c3Local c3Remote).details
      "Large time gap" = false := by
  refine ⟨rfl, rfl, ?_, ?_, ?_⟩ <;> decide

/-- C3 amended: when both timestamps are present (and non-zero, since the
code tests JavaScript truthiness) and the *signed* gap
`lastPacketReceivedTimestamp - lastPacketSentTimestamp` exceeds 5000 ms,
the details string is the base verdict's details with the instability note
appended, citing the gap rounded to whole seconds. -/
theorem claim_C3_amended (p : CandidatePairReport)
    (lc rc : RTCCandidateStats) (ts tr : Int)
    (hs : p.lastPacketSentTimestamp = some ts)
    (hr : p.lastPacketReceivedTimestamp = some tr)
    (hs0 : ts ≠ 0) (hr0 : tr ≠ 0) (hgap : tr - ts > 5000) :
    (analyzeConnectionFailure p lc rc).details =
      (baseAnalysis p lc rc).details ++
        gapNote (jsRoundDiv1000 (tr - ts)) := by
  rw [analyze_shape]
  unfold timingExtra
  rw [hs, hr]
  simp [hs0, hr0, hgap]

theorem claim_C3_witness :
    c3wPair.lastPacketSentTimestamp = some 1000 ∧
    c3wPair.lastPacketReceivedTimestamp = some 7000 ∧
    ((7000 : Int) - 1000 > 5000) ∧
    (analyzeConnectionFailure c3wPair c3Local c3Remote).details =
      (baseAnalysis c3wPair c3Local c3Remote).details ++
        gapNote (jsRoundDiv1000 (7000 - 1000)) ∧
    gapNote (jsRoundDiv1000 (7000 - 1000)) =
      " | Large time gap (6s) suggests network instability" ∧
    strContains (analyzeConnectionFailure c3wPair c3Local c3Remote).details
      "6s" = true :=
  ⟨rfl, rfl, by decide,
    claim_C3_amended c3wPair c3Local c3Remote 1000 7000 rfl rfl
      (by decide) (by decide) (by decide),
    by decide, by decide⟩

/-- C4 counterexample: `createOffer` called in the receiver branch does
not fail — there is no role or phase check — it proceeds and sets the
local description, so the session state does change. -/
theorem claim_C4_counterexample :
    receiverSession.isInitiator = false ∧
    receiverSession.hasPeerConnection = true ∧
    createOffer receiverSession =
      Except.ok { hasPeerConnection := true, isInitiator := false,
                  localDescriptionSet := true } :=
  ⟨rfl, rfl, rfl⟩

/-- C4 amended: `createOffer`'s only guard is the existence of a peer
connection — with none it fails with "No peer connection available",
otherwise it succeeds (role ignored) and sets the local description; the
initiator-only restriction lives in the UI, whose Create Offer control is
rendered only for the initiator. -/
theorem claim_C4_amended (s : OfferSession) :
    (s.hasPeerConnection = false →
      createOffer s = Except.error "No peer connection available") ∧
    (s.hasPeerConnection = true →
      createOffer s = Except.ok { s with localDescriptionSet := true }) ∧
    (createOfferControlShown s = true → s.isInitiator = true) := by
  refine ⟨fun h => ?_, fun h => ?_, fun h => ?_⟩
  · rw [createOffer, if_neg]
    simp [h]
  · rw [createOffer, if_pos]
    simp [h]
  · unfold createOfferControlShown at h
    exact (Bool.and_eq_true _ _ ▸ h).1

theorem claim_C4_witness :
    createOffer idleSession =
      Except.error "No peer connection available" ∧
    createOffer initiatorSession =
      Except.ok { initiatorSession with localDescriptionSet := true } ∧
    initiatorSession.isInitiator = true :=
  ⟨(claim_C4_amended idleSession).1 rfl,
    (claim_C4_amended initiatorSession).2.1 rfl,
    (claim_C4_amended initiatorSession).2.2 (by decide)⟩

/-- C5 counterexample: `initializeWebRTC` invoked while a session is
active does not fail — there is no already-active check — it clears the
registries of the active session and replaces the connection. -/
theorem claim_C5_counterexample :
    c5Active.peerConnectionActive = true ∧
    c5Active.localCandidates ≠ [] ∧
    initializeWebRTC false c5Active =
      { peerConnectionActive := true, isInitiator := false,
        localCandidates := [], remoteCandidates := [],
        candidatePairs := [] } := by
  refine ⟨rfl, ?_, ?_⟩ <;> decide

/-- C5 amended: `initializeWebRTC` performs no already-active check — it
unconditionally clears the three candidate maps, activates a fresh peer
connection and fixes the role; the must-reset-first discipline is enforced
by the UI, whose Initialize buttons are enabled only while no peer
connection exists. -/
theorem claim_C5_amended (asInitiator : Bool) (s : AppState)
    (iceServersLoading : Bool) :
    (initializeWebRTC asInitiator s).localCandidates = [] ∧
    (initializeWebRTC asInitiator s).remoteCandidates = [] ∧
    (initializeWebRTC asInitiator s).candidatePairs = [] ∧
    (initializeWebRTC asInitiator s).peerConnectionActive = true ∧
    (initializeWebRTC asInitiator s).isInitiator = asInitiator ∧
    (initializeButtonsEnabled s iceServersLoading = true →
      s.peerConnectionActive = false) := by
  refine ⟨rfl, rfl, rfl, rfl, rfl, fun h => ?_⟩
  unfold initializeButtonsEnabled at h
  have := (Bool.and_eq_true _ _ ▸ h).1
  simpa using this

theorem claim_C5_witness :
    (initializeWebRTC true c5Active).localCandidates = [] ∧
    (initializeWebRTC true c5Active).peerConnectionActive = true ∧
    c5Idle.peerConnectionActive = false :=
  ⟨(claim_C5_amended true c5Active false).1,
    (claim_C5_amended true c5Active false).2.2.2.1,
    (claim_C5_amended true c5Idle false).2.2.2.2.2 (by decide)⟩

theorem jsMapGet_eq_none {α : Type} {m : List (String × α)} {k : String}
    (h : k ∉ m.map Prod.fst) : jsMapGet m k = none := by
  induction m with
  | nil => rfl
  | cons e t ih =>
    simp only [List.map_cons, List.mem_cons] at h
    push_neg at h
    rw [jsMapGet, if_neg (fun he => h.1 he.symm)]
    exact ih h.2

theorem jsMapSet_not_mem {α : Type} {m : List (String × α)} {k : String}
    (h : k ∉ m.map Prod.fst) (v : α) : jsMapSet m k v = m ++ [(k, v)] := by
  induction m with
  | nil => rfl
  | cons e t ih =>
    simp only [List.map_cons, List.mem_cons] at h
    push_neg at h
    rw [jsMapSet, if_neg (fun he => h.1 he.symm)]
    rw [ih h.2, List.cons_append]

theorem jsMapSet_mem_nodup {α : Type} {m : List (String × α)} {k : String}
    (hm : (m.map Prod.fst).Nodup) (h : k ∈ m.map Prod.fst) (v : α) :
    jsMapSet m k v = m.map fun e => if e.1 = k then (k, v) else e := by
  induction m with
  | nil => cases h
  | cons e t ih =>
    simp only [List.map_cons, List.nodup_cons] at hm
    rw [jsMapSet, List.map_cons]
    by_cases he : e.1 = k
    · rw [if_pos he, if_pos he]
      have ht : ∀ x ∈ t, (if x.1 = k then (k, v) else x) = x := by
        intro x hx
        rw [if_neg]
        intro hxk
        refine hm.1 ?_
        rw [he, ← hxk]
        exact List.mem_map_of_mem Prod.fst hx
      rw [List.map_congr_left ht]
      simp
    · rw [if_neg he, if_neg he]
      simp only [List.map_cons, List.mem_cons] at h
      rcases h with h | h
      · exact absurd h.symm he
      · rw [ih hm.2 h]

theorem jsMapGet_of_mem_nodup {α : Type} {m : List (String × α)}
    (hm : (m.map Prod.fst).Nodup) {e : String × α} (he : e ∈ m) :
    jsMapGet m e.1 = some e.2 := by
  induction m with
  | nil => cases he
  | cons x t ih =>
    simp only [List.map_cons, List.nodup_cons] at hm
    rcases List.mem_cons.mp he with h | h
    · rw [h, jsMapGet, if_pos rfl]
    · rw [jsMapGet, if_neg, ih hm.2 h]
      intro hx
      refine hm.1 ?_
      rw [hx]
      exact List.mem_map_of_mem Prod.fst h

theorem keys_jsMapSet {α : Type} (m : List (String × α)) (k : String)
    (v : α) (hm : (m.map Prod.fst).Nodup) :
    (jsMapSet m k v).map Prod.fst =
      if k ∈ m.map Prod.fst then m.map Prod.fst
      else m.map Prod.fst ++ [k] := by
  by_cases h : k ∈ m.map Prod.fst
  · rw [if_pos h, jsMapSet_mem_nodup hm h, List.map_map]
    apply List.map_congr_left
    intro e _
    by_cases he : e.1 = k
    · simp [he]
    · simp [he]
  · rw [if_neg h, jsMapSet_not_mem h, List.map_append]
    rfl

theorem keys_jsMapSet_nodup {α : Type} (m : List (String × α)) (k : String)
    (v : α) (hm : (m.map Prod.fst).Nodup) :
    ((jsMapSet m k v).map Prod.fst).Nodup := by
  rw [keys_jsMapSet m k v hm]
  by_cases h : k ∈ m.map Prod.fst
  · rwa [if_pos h]
  · rw [if_neg h]
    refine List.Nodup.append hm (List.nodup_singleton k) ?_
    intro x hx hk
    rcases List.mem_singleton.mp hk with rfl
    exact h hx

theorem foldl_bumpTypeCount (ts : List String) :
    ∀ m : List (String × Nat), (m.map Prod.fst).Nodup →
      ts.foldl bumpTypeCount m =
        (m.map fun e => (e.1, e.2 + ts.countP (fun u => u = e.1))) ++
          groupCounts (ts.filter fun u => u ∉ m.map Prod.fst) := by
  induction ts with
  | nil =>
    intro m hm
    simp [groupCounts]
  | cons t ts ih =>
    intro m hm
    rw [List.foldl_cons]
    by_cases ht : t ∈ m.map Prod.fst
    · have hbump : bumpTypeCount m t =
          m.map fun e => if e.1 = t then (e.1, e.2 + 1) else e := by
        rw [bumpTypeCount, jsMapSet_mem_nodup hm ht]
        apply List.map_congr_left
        intro e he
        by_cases hek : e.1 = t
        · rw [if_pos hek, if_pos hek]
          have hg : jsMapGet m t = some e.2 := by
            rw [← hek]
            exact jsMapGet_of_mem_nodup hm he
          rw [hg, ← hek]
          rfl
        · rw [if_neg hek, if_neg hek]
      have hkeys : ((m.map fun e =>
          if e.1 = t then (e.1, e.2 + 1) else e).map Prod.fst) =
          m.map Prod.fst := by
        rw [List.map_map]
        apply List.map_congr_left
        intro e _
        by_cases hek : e.1 = t <;> simp [hek]
      rw [hbump, ih _ (by rw [hkeys]; exact hm)]
      simp only [hkeys]
      have hfc : (t :: ts).filter (fun u => u ∉ m.map Prod.fst) =
          ts.filter (fun u => u ∉ m.map Prod.fst) := by
        simp [List.filter_cons, ht]
      rw [hfc, List.map_map]
      congr 1
      apply List.map_congr_left
      intro e he
      by_cases hek : e.1 = t
      · simp only [Function.comp, if_pos hek, List.countP_cons]
        have : (fun u => decide (u = e.1)) t = true := by simp [hek]
        simp [hek, this]
        omega
      · simp only [Function.comp, if_neg hek, List.countP_cons]
        have : ¬ (t = e.1) := fun h => hek h.symm
        simp [this]
    · have hget : jsMapGet m t = none := jsMapGet_eq_none ht
      have hbump : bumpTypeCount m t = m ++ [(t, 1)] := by
        rw [bumpTypeCount, hget, jsMapSet_not_mem ht]
        rfl
      have hkeys2 : ((m ++ [(t, 1)]).map Prod.fst) =
          m.map Prod.fst ++ [t] := by
        simp
      have hnodup2 : (((m ++ [(t, 1)]).map Prod.fst)).Nodup := by
        rw [hkeys2]
        refine List.Nodup.append hm (List.nodup_singleton t) ?_
        intro x hx hk
        rcases List.mem_singleton.mp hk with rfl
        exact ht hx
      rw [hbump, ih _ hnodup2]
      simp only [hkeys2]
      have hfc : (t :: ts).filter (fun u => u ∉ m.map Prod.fst) =
          t :: ts.filter (fun u => u ∉ m.map Prod.fst) := by
        simp [List.filter_cons, ht]
      rw [hfc, groupCounts]
      have hcnt : (ts.filter fun u => u ∉ m.map Prod.fst).countP
          (fun u => u = t) = ts.countP (fun u => u = t) := by
        rw [List.countP_filter]
        congr 1
        funext u
        by_cases hu : u = t
        · subst hu
          simp [ht]
        · simp [hu]
      have hfilt : (ts.filter fun u => u ∉ m.map Prod.fst).filter
          (fun u => u ≠ t) =
          ts.filter (fun u => u ∉ m.map Prod.fst ++ [t]) := by
        rw [List.filter_filter]
        congr 1
        funext u
        by_cases h1 : u = t <;> by_cases h2 : u ∈ m.map Prod.fst <;>
          simp [h1, h2]
      rw [hcnt, hfilt]
      simp only [List.map_append, List.map_cons, List.map_nil,
        List.append_assoc, List.singleton_append]
      congr 1
      · apply List.map_congr_left
        intro e he
        have hek : ¬ (t = e.1) := by
          intro h
          exact ht (h ▸ List.mem_map_of_mem Prod.fst he)
        simp [List.countP_cons, hek]

/-- The count map built by `logCandidateSummary` lists each kind with its
total count, in order of the kind's first appearance. -/
theorem typeCounts_eq_groupCounts (ts : List String) :
    typeCounts ts = groupCounts ts := by
  have h := foldl_bumpTypeCount ts [] (by simp)
  simpa [typeCounts] using h

/-- C6 counterexample: when the single relay candidate was recorded before
the three host candidates, the summary lists `relay` (count 1) before
`host` (count 3) — first-appearance order, not descending-count order. -/
theorem claim_C6_counterexample :
    summaryByType (loadCandidates [relayInfo, hostInfoA, hostInfoB, hostInfoC]) =
        [("relay", 1), ("host", 3)] ∧
      ([("relay", 1), ("host", 3)] : List (String × Nat)) ≠
        [("host", 3), ("relay", 1)] := by
  constructor <;> decide

/-- C6 amended: `summaryByType` pairs each candidate kind with its total
count, listed in order of the kind's first appearance in the registry's
insertion order (no sort by count is applied); in the particular scenario
where the three host candidates precede the relay candidate, the result is
`[(host, 3), (relay, 1)]`. -/
theorem claim_C6_amended :
    (∀ m : List (String × ICECandidateInfo),
      summaryByType m = groupCounts (m.map fun e => e.2.type)) ∧
    summaryByType (loadCandidates [hostInfoA, hostInfoB, hostInfoC, relayInfo]) =
      [("host", 3), ("relay", 1)] :=
  ⟨fun m => by
    rw [summaryByType]
    exact typeCounts_eq_groupCounts _, by decide⟩

theorem jsMapGet_jsMapSet {α : Type} (m : List (String × α))
    (k k' : String) (v : α) :
    jsMapGet (jsMapSet m k v) k' =
      if k' = k then some v else jsMapGet m k' := by
  induction m with
  | nil =>
    by_cases h : k = k'
    · simp [jsMapSet, jsMapGet, h]
    · simp [jsMapSet, jsMapGet, h, show ¬ k' = k from fun hx => h hx.symm]
  | cons e t ih =>
    by_cases he : e.1 = k
    · by_cases h : k' = k
      · simp [jsMapSet, jsMapGet, he, h]
      · simp [jsMapSet, jsMapGet, he, h,
          show ¬ k = k' from fun hx => h hx.symm,
          show ¬ e.1 = k' from fun hx => h (hx.symm.trans he)]
    · by_cases h : k' = k
      · subst h
        simp [jsMapSet, jsMapGet, he, ih]
      · by_cases hek : e.1 = k'
        · simp [jsMapSet, jsMapGet, he, h, hek]
        · simp [jsMapSet, jsMapGet, he, h, hek, ih]

theorem jsMapGet_foldl_record (cs : List ICECandidateInfo) :
    ∀ (m : List (String × ICECandidateInfo)) (k : String),
      jsMapGet (cs.foldl recordCandidate m) k =
        match lastWithFoundation k cs with
        | some c => some c
        | none => jsMapGet m k := by
  induction cs with
  | nil =>
    intro m k
    rfl
  | cons c cs ih =>
    intro m k
    rw [List.foldl_cons, ih, lastWithFoundation]
    cases hl : lastWithFoundation k cs with
    | some d => rfl
    | none =>
      rw [recordCandidate, jsMapGet_jsMapSet]
      by_cases h : c.foundation = k
      · rw [if_pos h, if_pos h.symm]
      · rw [if_neg h, if_neg (fun hx => h hx.symm)]

/-- The registry after loading is, per foundation key, the last recorded
candidate with that foundation (last-writer-wins). -/
theorem jsMapGet_loadCandidates (cs : List ICECandidateInfo) (k : String) :
    jsMapGet (loadCandidates cs) k = lastWithFoundation k cs := by
  rw [loadCandidates, jsMapGet_foldl_record]
  cases hl : lastWithFoundation k cs <;> rfl

theorem lastWithFoundation_mem {k : String} {cs : List ICECandidateInfo}
    {c : ICECandidateInfo} (h : lastWithFoundation k cs = some c) :
    c ∈ cs ∧ c.foundation = k := by
  induction cs with
  | nil => cases h
  | cons d cs ih =>
    rw [lastWithFoundation] at h
    cases hl : lastWithFoundation k cs with
    | some x =>
      rw [hl] at h
      cases h
      obtain ⟨h1, h2⟩ := ih hl
      exact ⟨List.mem_cons_of_mem _ h1, h2⟩
    | none =>
      rw [hl] at h
      by_cases hd : d.foundation = k
      · rw [if_pos hd] at h
        cases h
        exact ⟨List.mem_cons_self _ _, hd⟩
      · rw [if_neg hd] at h
        cases h

theorem lastWithFoundation_isSome {k : String} {cs : List ICECandidateInfo}
    {c : ICECandidateInfo} (hc : c ∈ cs) (hk : c.foundation = k) :
    (lastWithFoundation k cs).isSome = true := by
  induction cs with
  | nil => cases hc
  | cons d cs ih =>
    rw [lastWithFoundation]
    cases hl : lastWithFoundation k cs with
    | some x => rfl
    | none =>
      rcases List.mem_cons.mp hc with rfl | hmem
      · rw [if_pos hk]
        rfl
      · have := ih hmem
        rw [hl] at this
        cases this

/-- Registry-content characterization under per-foundation determinism:
the registry maps `k` to `c` exactly when `c` was recorded and has
foundation `k` — the set of records deduplicated by foundation. -/
theorem jsMapGet_loadCandidates_iff (cs : List ICECandidateInfo)
    (hdet : ∀ a ∈ cs, ∀ b ∈ cs, a.foundation = b.foundation → a = b)
    (k : String) (c : ICECandidateInfo) :
    jsMapGet (loadCandidates cs) k = some c ↔
      c ∈ cs ∧ c.foundation = k := by
  rw [jsMapGet_loadCandidates]
  constructor
  · exact fun h => lastWithFoundation_mem h
  · rintro ⟨hc, hk⟩
    have hs := lastWithFoundation_isSome hc hk
    cases hl : lastWithFoundation k cs with
    | none => rw [hl] at hs; cases hs
    | some d =>
      obtain ⟨hd, hdk⟩ := lastWithFoundation_mem hl
      have : d = c := hdet d hd c hc (hdk.trans hk.symm)
      rw [this]

/-- C9 counterexample: two distinct candidates that share a foundation are
the same multiset of record calls in either order, yet the final registry
content depends on the arrival order — the later record wins — so the
final content is not order-independent. -/
theorem claim_C9_counterexample :
    dupA.foundation = dupB.foundation ∧
    dupA ≠ dupB ∧
    List.Perm [dupA, dupB] [dupB, dupA] ∧
    jsMapGet (loadCandidates [dupA, dupB]) "5000" = some dupB ∧
    jsMapGet (loadCandidates [dupB, dupA]) "5000" = some dupA ∧
    loadCandidates [dupA, dupB] ≠ loadCandidates [dupB, dupA] := by
  refine ⟨rfl, ?_, ?_, ?_, ?_, ?_⟩ <;> decide

/-- C9 amended: local-candidate recording inserts keyed by foundation and
re-insertion with the same key overwrites, so the registry holds, per
foundation, the last-recorded candidate; provided any two recorded
candidates sharing a foundation are identical, the content equals the set
of recorded candidates deduplicated by foundation and is independent of
arrival order.  (The code has no remote-side insertion path: the remote
registry is only ever cleared.) -/
theorem claim_C9_amended :
    (∀ (m : List (String × ICECandidateInfo)) (c : ICECandidateInfo),
      jsMapGet (recordCandidate m c) c.foundation = some c) ∧
    (∀ (cs : List ICECandidateInfo) (k : String),
      jsMapGet (loadCandidates cs) k = lastWithFoundation k cs) ∧
    (∀ cs : List ICECandidateInfo,
      (∀ a ∈ cs, ∀ b ∈ cs, a.foundation = b.foundation → a = b) →
      ∀ (k : String) (c : ICECandidateInfo),
        jsMapGet (loadCandidates cs) k = some c ↔
          c ∈ cs ∧ c.foundation = k) ∧
    (∀ cs cs' : List ICECandidateInfo, cs.Perm cs' →
      (∀ a ∈ cs, ∀ b ∈ cs, a.foundation = b.foundation → a = b) →
      ∀ k : String,
        jsMapGet (loadCandidates cs) k =
          jsMapGet (loadCandidates cs') k) := by
  refine ⟨?_, jsMapGet_loadCandidates, jsMapGet_loadCandidates_iff, ?_⟩
  · intro m c
    rw [recordCandidate, jsMapGet_jsMapSet, if_pos rfl]
  · intro cs cs' hperm hdet k
    have hdet' : ∀ a ∈ cs', ∀ b ∈ cs',
        a.foundation = b.foundation → a = b := fun a ha b hb =>
      hdet a (hperm.mem_iff.mpr ha) b (hperm.mem_iff.mpr hb)
    cases h1 : jsMapGet (loadCandidates cs) k with
    | some c =>
      obtain ⟨hc, hk⟩ := (jsMapGet_loadCandidates_iff cs hdet k c).mp h1
      exact ((jsMapGet_loadCandidates_iff cs' hdet' k c).mpr
        ⟨hperm.mem_iff.mp hc, hk⟩).symm
    | none =>
      cases h2 : jsMapGet (loadCandidates cs') k with
      | none => rfl
      | some c =>
        obtain ⟨hc, hk⟩ := (jsMapGet_loadCandidates_iff cs' hdet' k c).mp h2
        have h3 := (jsMapGet_loadCandidates_iff cs hdet k c).mpr
          ⟨hperm.mem_iff.mpr hc, hk⟩
        rw [h1] at h3
        cases h3

theorem claim_C9_witness :
    jsMapGet (recordCandidate [] hostInfoA) hostInfoA.foundation =
        some hostInfoA ∧
    List.Perm [hostInfoA, relayInfo] [relayInfo, hostInfoA] ∧
    jsMapGet (loadCandidates [hostInfoA, relayInfo]) "2001" =
      jsMapGet (loadCandidates [relayInfo, hostInfoA]) "2001" :=
  ⟨claim_C9_amended.1 [] hostInfoA, by decide,
    claim_C9_amended.2.2.2 [hostInfoA, relayInfo] [relayInfo, hostInfoA]
      (by decide) (by decide) "2001"⟩

theorem detailedFailureAnalyses_fst (reports : List StatsReport) :
    (detailedFailureAnalyses reports).map Prod.fst =
      ((pairsOf reports).filter fun p => p.state = "failed").filter
        (bothLookupsOk reports) := by
  rw [detailedFailureAnalyses]
  generalize ((pairsOf reports).filter fun p => p.state = "failed") = l
  induction l with
  | nil => rfl
  | cons p l ih =>
    rw [List.filterMap_cons, List.filter_cons]
    cases h1 : jsMapGet (localMapOf reports) p.localCandidateId with
    | none => simp [bothLookupsOk, h1, ih]
    | some lc =>
      cases h2 : jsMapGet (remoteMapOf reports) p.remoteCandidateId with
      | none => simp [bothLookupsOk, h1, h2, ih]
      | some rc => simp [bothLookupsOk, h1, h2, ih]

/-- C8: the analyzer is total on incomplete telemetry — a pair with any
missing connectivity-check counters is classified exactly as the same pair
with those counters set to 0 — and the detailed failure report covers
exactly the failed pairs whose two candidate lookups succeed: a pair whose
local- or remote-candidate lookup fails is omitted from the detailed
report rather than producing an error. -/
theorem claim_C8_missing_field_defaults (pair : CandidatePairReport)
    (lc rc : RTCCandidateStats) (reports : List StatsReport) :
    analyzeConnectionFailure pair lc rc =
        analyzeConnectionFailure (withDefaultCounters pair) lc rc ∧
      (detailedFailureAnalyses reports).map Prod.fst =
        ((pairsOf reports).filter fun p => p.state = "failed").filter
          (bothLookupsOk reports) :=
  ⟨rfl, detailedFailureAnalyses_fst reports⟩

/-- C10: `parseICECandidate` is a total function of the candidate input —
the embedding is a plain function and the source's `try`/`catch` has no
throwing operation to catch — with: fewer than 6 space-separated parts
gives `null`; a port or priority field that does not parse as an integer
(`parseInt` gives `NaN`) is carried as 0 in the returned record. -/
theorem claim_C10_parser_total (candStr : String) (candType : Option String) :
    ((jsSplitSpace candStr).length < 6 →
      parseICECandidate candStr candType = none) ∧
    (∀ info, parseICECandidate candStr candType = some info →
      (jsParseInt? ((jsSplitSpace candStr).getD 5 "") = none →
        info.port = 0) ∧
      (jsParseInt? ((jsSplitSpace candStr).getD 3 "") = none →
        info.priority = 0)) := by
  constructor
  · intro h
    rw [parseICECandidate, if_pos h]
  · intro info hinfo
    rw [parseICECandidate] at hinfo
    by_cases h : (jsSplitSpace candStr).length < 6
    · rw [if_pos h] at hinfo
      cases hinfo
    · rw [if_neg h] at hinfo
      cases hinfo
      constructor
      · intro hp
        simp only [jsParseIntOrZero, hp]
      · intro hp
        simp only [jsParseIntOrZero, hp]

theorem claim_C10_witness :
    parseICECandidate "candidate too short" none = none ∧
    (jsSplitSpace "candidate too short").length < 6 ∧
    parseICECandidate "4000 1 udp pri 10.0.0.9 prt typ host" (some "host") =
      some
        { candidate := "4000 1 udp pri 10.0.0.9 prt typ host",
          type := "host", protocol := "udp", address := "10.0.0.9",
          port := 0, priority := 0, foundation := "4000" } ∧
    ((parseICECandidate "4000 1 udp pri 10.0.0.9 prt typ host"
        (some "host")).map (fun i => i.port) = some 0) ∧
    ((parseICECandidate "4000 1 udp pri 10.0.0.9 prt typ host"
        (some "host")).map (fun i => i.priority) = some 0) := by
  refine ⟨(claim_C10_parser_total "candidate too short" none).1 (by decide),
    by decide, by decide, ?_, ?_⟩
  · have h := ((claim_C10_parser_total
      "4000 1 udp pri 10.0.0.9 prt typ host" (some "host")).2
      { candidate := "4000 1 udp pri 10.0.0.9 prt typ host",
        type := "host", protocol := "udp", address := "10.0.0.9",
        port := 0, priority := 0, foundation := "4000" } (by decide)).1
      (by decide)
    simp [h]
    decide
  · have h := ((claim_C10_parser_total
      "4000 1 udp pri 10.0.0.9 prt typ host" (some "host")).2
      { candidate := "4000 1 udp pri 10.0.0.9 prt typ host",
        type := "host", protocol := "udp", address := "10.0.0.9",
        port := 0, priority := 0, foundation := "4000" } (by decide)).2
      (by decide)
    simp [h]
    decide

/-- In a concatenation whose first part falsifies `P` everywhere and whose
second part satisfies `P` everywhere, once an element satisfies `P` every
later element does. -/
theorem once_true_stays {α : Type} (P : α → Prop) {S F : List α}
    (hS : ∀ x ∈ S, ¬ P x) (hF : ∀ x ∈ F, P x) :
    ∀ i j (hi : i < (S ++ F).length) (hj : j < (S ++ F).length), i ≤ j →
      P ((S ++ F).get ⟨i, hi⟩) → P ((S ++ F).get ⟨j, hj⟩) := by
  intro i j hi hj hij hPi
  have hiS : ¬ i < S.length := by
    intro hlt
    rw [List.get_eq_getElem, List.getElem_append_left hlt] at hPi
    exact hS _ (List.getElem_mem _) hPi
  have hjS : S.length ≤ j := le_trans (Nat.le_of_not_lt hiS) hij
  rw [List.get_eq_getElem, List.getElem_append_right hjS]
  exact hF _ (List.getElem_mem _)

/-- Filtering a two-section concatenation for the first section's
property keeps exactly that section. -/
theorem filter_append_left_sublist {α : Type} {S F R : List α}
    {p : α → Bool} (hS : ∀ x ∈ S, p x = true) (hF : ∀ x ∈ F, p x = false)
    (hSR : S.Sublist R) : ((S ++ F).filter p).Sublist R := by
  rw [List.filter_append, List.filter_eq_self.mpr hS,
    List.filter_eq_nil_iff.mpr (fun a ha hpa => by rw [hF a ha] at hpa; cases hpa),
    List.append_nil]
  exact hSR

/-- Filtering a two-section concatenation for the second section's
property keeps exactly that section. -/
theorem filter_append_right_sublist {α : Type} {S F R : List α}
    {p : α → Bool} (hS : ∀ x ∈ S, p x = false) (hF : ∀ x ∈ F, p x = true)
    (hFR : F.Sublist R) : ((S ++ F).filter p).Sublist R := by
  rw [List.filter_append, List.filter_eq_self.mpr hF,
    List.filter_eq_nil_iff.mpr (fun a ha hpa => by rw [hS a ha] at hpa; cases hpa),
    List.nil_append]
  exact hFR

/-- C7 amended: in the connectivity-check report the succeeded pairs are
all emitted before the failed pairs, and in the successful-connection
report the nominated pairs are all emitted before the non-nominated ones;
within every group the pairs keep the statistics snapshot's order (each
group is a sublist of the snapshot's pair list) — no sort by priority (or
anything else) is applied. -/
theorem claim_C7_report_ordering (reports : List StatsReport) :
    (∀ i j (hi : i < (failureReportOrder reports).length)
        (hj : j < (failureReportOrder reports).length), i ≤ j →
      ((failureReportOrder reports).get ⟨i, hi⟩).state = "failed" →
      ((failureReportOrder reports).get ⟨j, hj⟩).state = "failed") ∧
    (∀ i j (hi : i < (successReportOrder reports).length)
        (hj : j < (successReportOrder reports).length), i ≤ j →
      ((successReportOrder reports).get ⟨i, hi⟩).nominated = false →
      ((successReportOrder reports).get ⟨j, hj⟩).nominated = false) ∧
    (∀ p ∈ successReportOrder reports, p.state = "succeeded") ∧
    ((failureReportOrder reports).filter
      (fun p => p.state = "succeeded")).Sublist (pairsOf reports) ∧
    ((failureReportOrder reports).filter
      (fun p => p.state = "failed")).Sublist (pairsOf reports) ∧
    ((successReportOrder reports).filter
      (fun p => p.nominated)).Sublist (pairsOf reports) ∧
    ((successReportOrder reports).filter
      (fun p => !p.nominated)).Sublist (pairsOf reports) := by
  have horder : failureReportOrder reports =
      (((pairsOf reports).filter fun p => p.state = "succeeded").filter
        (bothLookupsOk reports)) ++
      (((pairsOf reports).filter fun p => p.state = "failed").filter
        (bothLookupsOk reports)) := rfl
  have horder2 : successReportOrder reports =
      (((pairsOf reports).filter fun p =>
          p.state = "succeeded" ∧ p.nominated).filter
        (bothLookupsOk reports)) ++
      (((pairsOf reports).filter fun p =>
          p.state = "succeeded" ∧ ¬p.nominated).filter
        (bothLookupsOk reports)) := rfl
  refine ⟨?_, ?_, ?_, ?_, ?_, ?_, ?_⟩
  · rw [horder]
    apply once_true_stays (fun p : CandidatePairReport => p.state = "failed")
    · intro x hx
      have hx2 := (List.mem_filter.mp (List.mem_filter.mp hx).1).2
      simp only [decide_eq_true_eq] at hx2
      simp [hx2]
    · intro x hx
      have hx2 := (List.mem_filter.mp (List.mem_filter.mp hx).1).2
      simpa using hx2
  · rw [horder2]
    apply once_true_stays (fun p : CandidatePairReport => p.nominated = false)
    · intro x hx
      have hx2 := (List.mem_filter.mp (List.mem_filter.mp hx).1).2
      simp only [decide_eq_true_eq] at hx2
      simp [hx2.2]
    · intro x hx
      have hx2 := (List.mem_filter.mp (List.mem_filter.mp hx).1).2
      simp only [decide_eq_true_eq] at hx2
      simp [hx2.2]
  · intro p hp
    rw [horder2] at hp
    rcases List.mem_append.mp hp with h | h <;>
      (have hx2 := (List.mem_filter.mp (List.mem_filter.mp h).1).2
       simp only [decide_eq_true_eq] at hx2
       exact hx2.1)
  · rw [horder]
    apply filter_append_left_sublist
    · intro x hx
      have hx2 := (List.mem_filter.mp (List.mem_filter.mp hx).1).2
      simp only [decide_eq_true_eq] at hx2
      simp [hx2]
    · intro x hx
      have hx2 := (List.mem_filter.mp (List.mem_filter.mp hx).1).2
      simp only [decide_eq_true_eq] at hx2
      simp [hx2]
    · exact List.Sublist.trans (List.filter_sublist _) (List.filter_sublist _)
  · rw [horder]
    apply filter_append_right_sublist
    · intro x hx
      have hx2 := (List.mem_filter.mp (List.mem_filter.mp hx).1).2
      simp only [decide_eq_true_eq] at hx2
      simp [hx2]
    · intro x hx
      have hx2 := (List.mem_filter.mp (List.mem_filter.mp hx).1).2
      simp only [decide_eq_true_eq] at hx2
      simp [hx2]
    · exact List.Sublist.trans (List.filter_sublist _) (List.filter_sublist _)
  · rw [horder2]
    apply filter_append_left_sublist
    · intro x hx
      have hx2 := (List.mem_filter.mp (List.mem_filter.mp hx).1).2
      simp only [decide_eq_true_eq] at hx2
      simp [hx2.2]
    · intro x hx
      have hx2 := (List.mem_filter.mp (List.mem_filter.mp hx).1).2
      simp only [decide_eq_true_eq] at hx2
      simp [hx2.2]
    · exact List.Sublist.trans (List.filter_sublist _) (List.filter_sublist _)
  · rw [horder2]
    apply filter_append_right_sublist
    · intro x hx
      have hx2 := (List.mem_filter.mp (List.mem_filter.mp hx).1).2
      simp only [decide_eq_true_eq] at hx2
      simp [hx2.2]
    · intro x hx
      have hx2 := (List.mem_filter.mp (List.mem_filter.mp hx).1).2
      simp only [decide_eq_true_eq] at hx2
      simp [hx2.2]
    · exact List.Sublist.trans (List.filter_sublist _) (List.filter_sublist _)

/-- C7 counterexample: two nominated succeeded pairs whose snapshot order
is ascending priority (300 then 500) are emitted in that same snapshot
order — the success report does not sort groups by descending priority. -/
theorem claim_C7_counterexample :
    successReportOrder c7Reports = [c7PairLow, c7PairHigh] ∧
    c7PairLow.nominated = true ∧
    c7PairHigh.nominated = true ∧
    c7PairLow.priority = some 300 ∧
    c7PairHigh.priority = some 500 ∧
    (300 : Int) < 500 := by
  refine ⟨?_, rfl, rfl, rfl, rfl, ?_⟩ <;> decide

theorem claim_C7_witness :
    ((failureReportOrder c7Reports).get ⟨2, by decide⟩).state = "failed" ∧
    c7PairLow.state = "succeeded" :=
  ⟨(claim_C7_report_ordering c7Reports).1 2 2 (by decide) (by decide)
      (le_refl 2) (by decide),
    (claim_C7_report_ordering c7Reports).2.2.1 c7PairLow (by decide)⟩

end WebRTCDebug
